import Mathlib

/- Verification of the maryny4/pyrogram_auth repository, centred on the QR-login
coordinator of src/qr-auth/qr-auth.py and the session-string script
src/string-auth/string-auth.py.

The scripts are asynchronous Python programs driven by an external Telegram
client library.  We embed them shallowly: every external interaction (the
result of an RPC invocation, an exception raised by a library call, a push
update delivered by the dispatcher while the coordinator is awaiting) is an
explicit event supplied through a finite script, and the repository's
functions become total Lean functions over a state record that mirrors the
Python module globals and local variables.  Machine integers in the source
are small non-negative counters and DC identifiers, so they are modelled as
Nat; token byte strings are lists of Nat (each byte below 256 at runtime). -/

namespace PyrogramAuth

/-- Constant MAX_QR_CODES (qr-auth.py line 56): maximum QR codes per data
center. -/
def MAX_QR_CODES : Nat := 3

/-- Constant QR_TIMEOUT (qr-auth.py line 57): per-code timeout in seconds,
the duration of the sleep task raced in create_qrcodes. -/
def QR_TIMEOUT : Nat := 30

/-- Duration in seconds of the bounded grace wait for a migration signal
after the QR-code budget is exhausted (second argument of asyncio.wait_for at
qr-auth.py line 289). -/
def GRACE_WAIT_SECONDS : Nat := 10

/-- Coordinator state for one QR-login run: the two module-level asyncio
events SESSION_CREATED and DC_MIGRATED, the data-center id held in client
storage (client.storage.dc_id), and the local variables qr_counter and
dc_migrated_flag of create_qrcodes (qr-auth.py lines 53-58 and 266-267). -/
structure St where
  sessionCreated : Bool
  dcMigrated : Bool
  dcId : Nat
  qrCounter : Nat
  dcMigratedFlag : Bool
  deriving DecidableEq

/-- Observable side effects accumulated during a run: QR codes rendered
(with the DC id current at issuance and the token bytes), grace waits
performed (each records its duration), invocation counts of client.get_me and
client.export_session_string, 2FA password prompts, blocking sleeps performed
by the coordinator (each records its duration), and the printed session
credential if any. -/
structure Obs where
  codes : List (Nat × List Nat)
  graceWaits : List Nat
  getMeCount : Nat
  exportCount : Nat
  prompts : Nat
  sleeps : List Nat
  cred : Option String
  deriving DecidableEq

/-- Empty observation record at the start of a run. -/
def obs0 : Obs :=
  { codes := [], graceWaits := [], getMeCount := 0, exportCount := 0,
    prompts := 0, sleeps := [], cred := none }

/-- Initial coordinator state once qr_auth has connected and resolved a data
center d: both asyncio events clear, qr_counter = 0, dc_migrated_flag false
(qr-auth.py lines 266-267). -/
def initSt (d : Nat) : St :=
  { sessionCreated := false, dcMigrated := false, dcId := d,
    qrCounter := 0, dcMigratedFlag := false }

/-- Outcome of one call to check_session (qr-auth.py lines 88-130), which is
the switch-data-center procedure.  The body runs inside one try/except that
returns False on any exception: `stopFail` is an exception raised while
stopping the old session (lines 101-102), before the storage DC id is
updated; `authFail` is a failure of auth-key creation or storage after the
DC id was already written (lines 108-115); `startFail` is Session
construction/start failing or session.start() returning False (lines
118-127); `ok` is the fully successful path. -/
inductive SwitchOutcome where
  | ok
  | stopFail
  | authFail
  | startFail
  deriving DecidableEq

/-- check_session (qr-auth.py lines 88-130): stop the old session, write the
target DC id into storage (line 105), rebuild the auth key and session, and
report success.  An exception before the storage write (stopFail) leaves the
stored DC id unchanged; every later failure happens after the DC id was
updated.  Returns the new state and the boolean result. -/
def check_session (s : St) (target : Nat) : SwitchOutcome → St × Bool
  | .stopFail => (s, false)
  | .authFail => ({ s with dcId := target }, false)
  | .startFail => ({ s with dcId := target }, false)
  | .ok => ({ s with dcId := target }, true)

/-- Outcome of the finalization block run after auth.ExportLoginToken returns
LoginTokenSuccess (qr-auth.py lines 192-208 and 239-252): `ok cred` means
client.get_me and client.export_session_string both succeeded and the
credential string cred was printed; `getMeFails` means get_me raised (so the
export call never ran); `exportFails` means get_me succeeded and
export_session_string raised.  In every case the inner try/except swallows
the error and SESSION_CREATED is set afterwards. -/
inductive FinOutcome where
  | ok (cred : String)
  | getMeFails
  | exportFails
  deriving DecidableEq

/-- Result of client.check_password inside handle_2fa (qr-auth.py lines
142-158): success, errors.PasswordHashInvalid, errors.FloodWait carrying a
wait duration, or any other exception. -/
inductive PwOutcome where
  | ok
  | invalid
  | flood (n : Nat)
  | err
  deriving DecidableEq

/-- Result of the retried auth.ExportLoginToken call made after a successful
2FA check (qr-auth.py lines 232-254): the success variant with its
finalization outcome, some other result type (no isinstance branch matches),
or an exception (caught and logged at line 253). -/
inductive RetryOutcome where
  | success (fin : FinOutcome)
  | notSuccess
  | fails
  deriving DecidableEq

/-- One activation of raw_update_handler on a raw.types.UpdateLoginToken push
(qr-auth.py lines 160-257), classified by the outcome of the
auth.ExportLoginToken invocation it performs: the success variant, the
migrate-to-DC variant (with the behavior of the check_session call), the
SessionPasswordNeeded exception (with the 2FA outcome and, if the 2FA check
succeeds, the outcome of the retried export call), or any other exception
(caught and logged at line 256).  The DC-mismatch pre-check at lines 173-177
tests isinstance(update, raw.types.auth.LoginToken), which is never true of
the raw update objects delivered to the handler, so it has no effect here. -/
inductive UpdEv where
  | exportSuccess (fin : FinOutcome)
  | exportMigrate (target : Nat) (sw : SwitchOutcome)
  | exportPwdNeeded (pw : PwOutcome) (retry : RetryOutcome)
  | exportError
  deriving DecidableEq

/-- Result of one call to handle_2fa (qr-auth.py lines 132-158): whether it
returned True, how many password prompts it issued (getpass runs exactly
once per call), whether it logged an error, and the blocking sleeps it
performed (the function body contains no sleep on any path). -/
structure TwoFaRes where
  success : Bool
  prompts : Nat
  errorLogged : Bool
  sleeps : List Nat
  deriving DecidableEq

/-- handle_2fa (qr-auth.py lines 132-158): prompt once for the password and
call client.check_password.  Success returns True; PasswordHashInvalid,
FloodWait and any other exception are each caught, logged, and make the
function return False.  No path sleeps and no path re-prompts. -/
def handle_2fa : PwOutcome → TwoFaRes
  | .ok => { success := true, prompts := 1, errorLogged := false, sleeps := [] }
  | .invalid => { success := false, prompts := 1, errorLogged := true, sleeps := [] }
  | .flood _ => { success := false, prompts := 1, errorLogged := true, sleeps := [] }
  | .err => { success := false, prompts := 1, errorLogged := true, sleeps := [] }

/-- True exactly on the handle_2fa outcomes that make it return False:
an invalid password, a rate-limit response, or another error. -/
def PwOutcome.failed : PwOutcome → Bool
  | .ok => false
  | .invalid => true
  | .flood _ => true
  | .err => true

/-- The LoginTokenSuccess finalization block (qr-auth.py lines 192-208, also
reused at 239-252): call client.get_me; if it succeeds call
client.export_session_string and print the credential; swallow any error of
those two calls; then set SESSION_CREATED. -/
def finalizeLogin (s : St) (o : Obs) : FinOutcome → St × Obs
  | .ok cred =>
      ({ s with sessionCreated := true },
       { o with getMeCount := o.getMeCount + 1, exportCount := o.exportCount + 1,
                cred := some cred })
  | .getMeFails =>
      ({ s with sessionCreated := true },
       { o with getMeCount := o.getMeCount + 1 })
  | .exportFails =>
      ({ s with sessionCreated := true },
       { o with getMeCount := o.getMeCount + 1, exportCount := o.exportCount + 1 })

/-- raw_update_handler (qr-auth.py lines 160-257) on one UpdateLoginToken
push, as a state transformer.  On the success variant it runs the
finalization block.  On the migrate variant it calls check_session with the
target DC, continues regardless of the boolean result (lines 216-220), and
sets DC_MIGRATED without generating any QR code (lines 222-224).  On
SessionPasswordNeeded it runs handle_2fa and, only if that returned True,
retries the export call; a failed 2FA leaves both events untouched and the
handler simply returns.  Any other exception is logged and ignored. -/
def raw_update_handler (s : St) (o : Obs) : UpdEv → St × Obs
  | .exportSuccess fin => finalizeLogin s o fin
  | .exportMigrate target sw =>
      let p := check_session s target sw
      ({ p.1 with dcMigrated := true }, o)
  | .exportPwdNeeded pw retry =>
      let r := handle_2fa pw
      let o2 := { o with prompts := o.prompts + r.prompts,
                         sleeps := o.sleeps ++ r.sleeps }
      if r.success then
        match retry with
        | .success fin => finalizeLogin s o2 fin
        | .notSuccess => (s, o2)
        | .fails => (s, o2)
      else (s, o2)
  | .exportError => (s, o)

/-- Deliver a list of handler activations in order (the update dispatcher
runs raw_update_handler once per pushed update while the coordinator is
awaiting). -/
def applyUpds : St → Obs → List UpdEv → St × Obs
  | s, o, [] => (s, o)
  | s, o, u :: us =>
      let p := raw_update_handler s o u
      applyUpds p.1 p.2 us

/-- Result of the auth.ExportLoginToken invocation made by create_qrcodes
(qr-auth.py lines 313-318) together with, in the token case, the handler
activations delivered during the subsequent three-way race (lines 326-349):
`token t race` is the LoginToken variant carrying token bytes t;
`unexpected` is any other result type (line 350); `floodWait n` is
errors.FloodWait with wait duration n (line 353); `rpcError` and `exn` are
the two remaining exception arms (lines 356 and 359). -/
inductive InvokeEv where
  | token (t : List Nat) (race : List UpdEv)
  | unexpected
  | floodWait (n : Nat)
  | rpcError
  | exn
  deriving DecidableEq

/-- One scripted await point of the create_qrcodes loop: either the events
delivered during a grace wait for migration (reached only when the QR budget
is exhausted), or the outcome of an ExportLoginToken invocation. -/
inductive StepEv where
  | grace (us : List UpdEv)
  | inv (r : InvokeEv)
  deriving DecidableEq

/-- How a run of create_qrcodes ended: returned after SESSION_CREATED was
set; returned with "Please try again later" after the grace wait timed out
(exhausted retries); the script supplied no further events while the loop
was still running; or the script supplied an event of the wrong kind for the
await point reached. -/
inductive RunResult where
  | confirmed
  | exhausted
  | outOfScript
  | badScript
  deriving DecidableEq

/-- Final state of a run: how it ended, the coordinator state, and the
accumulated observations. -/
structure RunOut where
  result : RunResult
  st : St
  obs : Obs
  deriving DecidableEq

/-- Outcome of one pass of the create_qrcodes while-loop body: either the
function returned, or the loop proceeds to its next iteration with the given
state and observations. -/
inductive IterOut where
  | halt (r : RunResult) (s : St) (o : Obs)
  | next (s : St) (o : Obs)

/-- One pass of the body of the while-loop of create_qrcodes (qr-auth.py
lines 269-361).  If DC_MIGRATED is set, reset qr_counter, set the local
dc_migrated_flag, sleep 2 seconds and clear the event (lines 271-279).
Increment qr_counter (line 281).  If the counter now exceeds MAX_QR_CODES,
perform the bounded 10-second grace wait for DC_MIGRATED (lines 284-300):
if the event is set when the wait ends, continue the loop, otherwise return
exhausted; no QR code is generated on this path.  Otherwise invoke
auth.ExportLoginToken (lines 312-318): on a LoginToken result render the QR
code (line 323) and race SESSION_CREATED, the 30-second timer and
DC_MIGRATED (lines 326-349), returning if SESSION_CREATED is set and looping
otherwise; on an unexpected result or an RPC/other error sleep 3 seconds and
loop; on FloodWait sleep the indicated number of seconds and loop. -/
def loopBody (s0 : St) (o0 : Obs) (e : StepEv) : IterOut :=
  let p :=
    if s0.dcMigrated then
      ({ s0 with qrCounter := 0, dcMigratedFlag := true, dcMigrated := false },
       { o0 with sleeps := o0.sleeps ++ [2] })
    else (s0, o0)
  let s1 := { p.1 with qrCounter := p.1.qrCounter + 1 }
  let o1 := p.2
  if s1.qrCounter > MAX_QR_CODES then
    match e with
    | .grace us =>
        let o2 := { o1 with graceWaits := o1.graceWaits ++ [GRACE_WAIT_SECONDS] }
        let q := applyUpds s1 o2 us
        if q.1.dcMigrated then .next q.1 q.2
        else .halt .exhausted q.1 q.2
    | .inv _ => .halt .badScript s1 o1
  else
    match e with
    | .grace _ => .halt .badScript s1 o1
    | .inv (.token t us) =>
        let o2 := { o1 with codes := o1.codes ++ [(s1.dcId, t)] }
        let q := applyUpds s1 o2 us
        if q.1.sessionCreated then .halt .confirmed q.1 q.2
        else .next q.1 q.2
    | .inv .unexpected => .next s1 { o1 with sleeps := o1.sleeps ++ [3] }
    | .inv (.floodWait n) => .next s1 { o1 with sleeps := o1.sleeps ++ [n] }
    | .inv .rpcError => .next s1 { o1 with sleeps := o1.sleeps ++ [3] }
    | .inv .exn => .next s1 { o1 with sleeps := o1.sleeps ++ [3] }

/-- create_qrcodes (qr-auth.py lines 259-361) driven by a finite script of
await-point events.  The while-loop guard re-checks SESSION_CREATED before
every pass (line 269); each pass consumes exactly one script event. -/
def create_qrcodes : List StepEv → St → Obs → RunOut
  | [], s, o =>
      if s.sessionCreated then { result := .confirmed, st := s, obs := o }
      else { result := .outOfScript, st := s, obs := o }
  | e :: rest, s, o =>
      if s.sessionCreated then { result := .confirmed, st := s, obs := o }
      else
        match loopBody s o e with
        | .halt r s2 o2 => { result := r, st := s2, obs := o2 }
        | .next s2 o2 => create_qrcodes rest s2 o2

/-- Numeric value of an ASCII digit character. -/
def digitVal (c : Char) : Nat := c.toNat - 48

/-- Value of a decimal digit string, as Python int() computes it for the
strings accepted by str.isdigit. -/
def parseNat (cs : List Char) : Nat :=
  cs.foldl (fun acc c => acc * 10 + digitVal c) 0

/-- The DC-selection prompt handling of qr_auth (qr-auth.py lines 382-392):
a non-empty all-digit input whose value lies between 1 and 5 selects that
DC; an empty input, a non-digit input, or an out-of-range number leaves
selected_dc as None (with a warning in the out-of-range case). -/
def parseDcChoice (s : String) : Option Nat :=
  if !s.toList.isEmpty && s.toList.all Char.isDigit then
    let n := parseNat s.toList
    if 1 ≤ n ∧ n ≤ 5 then some n else none
  else none

/-- Resolution of the target data center in qr_auth (qr-auth.py lines
410-427): a caller-selected DC wins outright; otherwise the result of the
help.GetNearestDc query is used; if that query raises, the run logs the
error, defaults to DC 2 and continues. -/
def resolveDc (selected : Option Nat) (q : Except Unit Nat) : Nat :=
  match selected with
  | some d => d
  | none =>
      match q with
      | Except.ok d => d
      | Except.error _ => 2

/-- The standard base64 alphabet used by Python base64.b64encode
(RFC 4648 section 4). -/
def alphStd : List Char :=
  ['A', 'B', 'C', 'D', 'E', 'F', 'G', 'H', 'I', 'J', 'K', 'L', 'M',
   'N', 'O', 'P', 'Q', 'R', 'S', 'T', 'U', 'V', 'W', 'X', 'Y', 'Z',
   'a', 'b', 'c', 'd', 'e', 'f', 'g', 'h', 'i', 'j', 'k', 'l', 'm',
   'n', 'o', 'p', 'q', 'r', 's', 't', 'u', 'v', 'w', 'x', 'y', 'z',
   '0', '1', '2', '3', '4', '5', '6', '7', '8', '9', '+', '/']

/-- The URL-safe base64 alphabet of RFC 4648 section 5: the standard
alphabet with '-' and '_' in place of '+' and '/'. -/
def alphUrl : List Char :=
  ['A', 'B', 'C', 'D', 'E', 'F', 'G', 'H', 'I', 'J', 'K', 'L', 'M',
   'N', 'O', 'P', 'Q', 'R', 'S', 'T', 'U', 'V', 'W', 'X', 'Y', 'Z',
   'a', 'b', 'c', 'd', 'e', 'f', 'g', 'h', 'i', 'j', 'k', 'l', 'm',
   'n', 'o', 'p', 'q', 'r', 's', 't', 'u', 'v', 'w', 'x', 'y', 'z',
   '0', '1', '2', '3', '4', '5', '6', '7', '8', '9', '-', '_']

/-- Look up a 6-bit group in a base64 alphabet. -/
def b64index (alph : List Char) (i : Nat) : Char := alph.getD i ' '

/-- The sequence of 6-bit groups of a byte string under base64, with `none`
for each trailing '=' padding position: three input bytes yield four groups,
a final single byte yields two groups and two pads, a final pair of bytes
yields three groups and one pad. -/
def b64indices : List Nat → List (Option Nat)
  | [] => []
  | [a] => [some (a / 4), some (a % 4 * 16), none, none]
  | [a, b] => [some (a / 4), some (a % 4 * 16 + b / 16), some (b % 16 * 4), none]
  | a :: b :: c :: rest =>
      some (a / 4) :: some (a % 4 * 16 + b / 16) ::
      some (b % 16 * 4 + c / 64) :: some (c % 64) :: b64indices rest

/-- Base64 encoding of a byte string over a given alphabet, '=' at each
padding position. -/
def encWith (alph : List Char) (bs : List Nat) : List Char :=
  (b64indices bs).map (fun o =>
    match o with
    | some i => b64index alph i
    | none => '=')

/-- Python base64.b64encode on a byte string, as a list of characters. -/
def b64encode (bs : List Nat) : List Char := encWith alphStd bs

/-- The character translation performed by Python base64.urlsafe_b64encode
on the standard encoding: '+' becomes '-' and '/' becomes '_'. -/
def translateChar (c : Char) : Char :=
  if c = '+' then '-' else if c = '/' then '_' else c

/-- Python base64.urlsafe_b64encode, exactly as CPython implements it:
standard base64 followed by the two-character translation. -/
def urlsafe_b64encode (bs : List Nat) : List Char :=
  (b64encode bs).map translateChar

/-- Modelled from the spec: the URL-safe base64 encoding of RFC 4648
section 5, written directly over the URL-safe alphabet.  This is the
spec-side definition against which the source's translation-based encoder is
compared. -/
def base64url (bs : List Nat) : List Char := encWith alphUrl bs

/-- The deep link built by generate_qr (qr-auth.py lines 73-81):
"tg://login?token=" followed by the URL-safe base64 of the token bytes. -/
def login_url (token : List Nat) : String :=
  "tg://login?token=" ++ String.mk (urlsafe_b64encode token)

/-- generate_qr (qr-auth.py lines 73-86) renders exactly the deep link into
the QR object (qr.add_data(login_url)); this is the data encoded into the
scannable code. -/
def generate_qr (token : List Nat) : String := login_url token

/-- Environment of one run of session_string_auth
(src/string-auth/string-auth.py): the results of client.connect and
client.get_me (the unit error stands for any of the exception classes the
script catches). -/
structure StrEnv where
  connect : Except Unit Unit
  getMe : Except Unit Bool

/-- Observable effects of one run of session_string_auth: whether an error
was logged, whether a Client object was constructed, whether a connection to
Telegram was attempted, and whether account information was logged. -/
structure StrObs where
  errorLogged : Bool
  clientConstructed : Bool
  connectAttempted : Bool
  accountLogged : Bool
  deriving DecidableEq

/-- session_string_auth (string-auth.py lines 50-147) given the operator's
input string: an empty input is rejected up front (lines 76-78) with an
error log and an immediate return, before the Client construction at line
81; otherwise the client is built, connect is attempted, and on success
get_me is called and the account info is logged; every exception path logs
an error. -/
def session_string_auth (input : String) (env : StrEnv) : StrObs :=
  if input = "" then
    { errorLogged := true, clientConstructed := false,
      connectAttempted := false, accountLogged := false }
  else
    match env.connect with
    | Except.error _ =>
        { errorLogged := true, clientConstructed := true,
          connectAttempted := true, accountLogged := false }
    | Except.ok _ =>
        match env.getMe with
        | Except.error _ =>
            { errorLogged := true, clientConstructed := true,
              connectAttempted := true, accountLogged := false }
        | Except.ok _ =>
            { errorLogged := false, clientConstructed := true,
              connectAttempted := true, accountLogged := true }

/-- Helper for the base64 refinement: translating the character the standard
alphabet assigns to a 6-bit group yields the character the URL-safe alphabet
assigns to it, for every index (out-of-range indices hit the common default
character, which the translation fixes). -/
theorem translate_b64index (i : Nat) :
    translateChar (b64index alphStd i) = b64index alphUrl i := by
  by_cases h : i < 64
  · have hall : ∀ j, j < 64 → translateChar (b64index alphStd j) = b64index alphUrl j := by
      decide
    exact hall i h
  · have h1 : alphStd.length ≤ i := by
      have e : alphStd.length = 64 := by decide
      omega
    have h2 : alphUrl.length ≤ i := by
      have e : alphUrl.length = 64 := by decide
      omega
    rw [b64index, b64index, List.getD_eq_default _ _ h1, List.getD_eq_default _ _ h2]
    decide

/-- Helper for the base64 refinement: applying the urlsafe translation to the
standard encoding gives exactly the direct URL-safe encoding, for every byte
string. -/
theorem map_translate_encode (bs : List Nat) :
    (encWith alphStd bs).map translateChar = encWith alphUrl bs := by
  have hfun :
      (translateChar ∘ fun o : Option Nat =>
        match o with
        | some i => b64index alphStd i
        | none => '=') =
      (fun o : Option Nat =>
        match o with
        | some i => b64index alphUrl i
        | none => '=') := by
    funext o
    cases o with
    | none => rfl
    | some i => exact translate_b64index i
  rw [encWith, encWith, List.map_map, hfun]

/-- C1: starting from a fresh state on any data center d, a run in which
three codes are issued (any token bytes) with every race ending in timer
expiry and with the grace wait receiving no migration signal ends as
exhausted retries, after exactly one 10-second grace wait and exactly the
three codes issued on d, none during or after the wait. -/
theorem qr_exhausted_after_three_codes (d : Nat) (t1 t2 t3 : List Nat) :
    (let r := create_qrcodes
        [.inv (.token t1 []), .inv (.token t2 []), .inv (.token t3 []), .grace []]
        (initSt d) obs0;
     r.result = .exhausted ∧ r.obs.graceWaits = [GRACE_WAIT_SECONDS] ∧
     r.obs.codes = [(d, t1), (d, t2), (d, t3)]) :=
  ⟨rfl, rfl, rfl⟩

/-- C2 counterexample: a migration signal to DC 2 arrives from DC 1 but the
switch procedure fails while stopping the old session (before the storage DC
update), so - contrary to the claim that currentDataCenter is set to the
target regardless of switch success or failure - the DC id stays 1, and the
fresh code after migration is issued on DC 1, not the new DC.  The counter
reset itself does happen (counter is 1 after the fresh code). -/
theorem qr_migration_switch_fail_keeps_dc :
    (let r := create_qrcodes
        [.inv (.token [0] [.exportMigrate 2 .stopFail]), .inv (.token [1] [])]
        (initSt 1) obs0;
     r.st.dcId = 1 ∧ r.st.dcId ≠ 2 ∧ r.st.qrCounter = 1 ∧
     r.obs.codes = [(1, [0]), (1, [1])]) := by
  decide

/-- C2 amended: a migration signal received during the await race, at any
issuance count, always resets the QR counter to 0 (the fresh code after
migration is issued with counter 1) and always leads to a fresh code; the
data-center id is set to the migration target in every case except when the
switch procedure fails before reaching its storage DC update (stopFail), in
which case it is left unchanged, and the fresh code is issued on the
resulting current data center. -/
theorem qr_migration_always_resets_counter (d c target : Nat) (fl : Bool)
    (sw : SwitchOutcome) (t1 t2 : List Nat) (h : c + 1 ≤ MAX_QR_CODES) :
    (let r := create_qrcodes
        [.inv (.token t1 [.exportMigrate target sw]), .inv (.token t2 [])]
        { sessionCreated := false, dcMigrated := false, dcId := d,
          qrCounter := c, dcMigratedFlag := fl } obs0;
     r.result = .outOfScript ∧ r.st.qrCounter = 1 ∧
     r.st.dcId = (if sw = .stopFail then d else target) ∧
     r.obs.codes = [(d, t1), ((if sw = .stopFail then d else target), t2)]) := by
  have hc : c ≤ 2 := by
    have e : MAX_QR_CODES = 3 := rfl
    omega
  interval_cases c <;> cases sw <;> exact ⟨rfl, rfl, rfl, rfl⟩

/-- Witness for the amended C2 theorem at issuance count 2, a failing switch
to DC 2 from DC 1. -/
theorem qr_migration_always_resets_counter_w :
    2 + 1 ≤ MAX_QR_CODES ∧
    (let r := create_qrcodes
        [.inv (.token [0] [.exportMigrate 2 .stopFail]), .inv (.token [1] [])]
        { sessionCreated := false, dcMigrated := false, dcId := 1,
          qrCounter := 2, dcMigratedFlag := false } obs0;
     r.result = .outOfScript ∧ r.st.qrCounter = 1 ∧
     r.st.dcId = (if SwitchOutcome.stopFail = SwitchOutcome.stopFail then 1 else 2) ∧
     r.obs.codes = [(1, [0]),
       ((if SwitchOutcome.stopFail = SwitchOutcome.stopFail then 1 else 2), [1])]) :=
  ⟨by decide, qr_migration_always_resets_counter 1 2 2 false .stopFail [0] [1] (by decide)⟩

/-- C3: after any number k of prior codes (k up to the per-DC budget minus
one), a confirmation signal - the export-login-token call returning the
success variant, whose finalization succeeds and yields the credential
string cred - makes the run end as confirmed immediately, with get_me and
export_session_string each invoked exactly once, the non-empty credential
cred printed, and no code issued beyond the k+1 already rendered. -/
theorem qr_confirmation_exports_once (k d : Nat) (cred : String)
    (hk : k ≤ 2) (hc : cred ≠ "") :
    (let r := create_qrcodes
        (List.replicate k (StepEv.inv (.token [0] [])) ++
          [.inv (.token [1] [.exportSuccess (.ok cred)])])
        (initSt d) obs0;
     r.result = .confirmed ∧ r.obs.getMeCount = 1 ∧ r.obs.exportCount = 1 ∧
     r.obs.cred = some cred ∧ r.obs.codes.length = k + 1) ∧ cred ≠ "" := by
  refine ⟨?_, hc⟩
  interval_cases k <;> exact ⟨rfl, rfl, rfl, rfl, rfl⟩

/-- Witness for C3 with two prior codes and credential "abc". -/
theorem qr_confirmation_exports_once_w :
    2 ≤ 2 ∧ ("abc" : String) ≠ "" ∧
    ((let r := create_qrcodes
        (List.replicate 2 (StepEv.inv (.token [0] [])) ++
          [.inv (.token [1] [.exportSuccess (.ok "abc")])])
        (initSt 1) obs0;
      r.result = .confirmed ∧ r.obs.getMeCount = 1 ∧ r.obs.exportCount = 1 ∧
      r.obs.cred = some "abc" ∧ r.obs.codes.length = 2 + 1) ∧ ("abc" : String) ≠ "") :=
  ⟨by decide, by decide, qr_confirmation_exports_once 2 1 "abc" (by decide) (by decide)⟩

/-- C4: from any state awaiting within the per-DC budget (counter c with
c + 1 at most MAX_QR_CODES, both events clear), a timer expiry with no
confirmation and no migration leads to exactly one new code being issued,
with the data-center id unchanged and the issuance counter incremented by
exactly one. -/
theorem qr_timer_expiry_issues_one_code (d c : Nat) (fl : Bool) (t : List Nat)
    (h : c + 1 ≤ MAX_QR_CODES) :
    (let r := create_qrcodes [.inv (.token t [])]
        { sessionCreated := false, dcMigrated := false, dcId := d,
          qrCounter := c, dcMigratedFlag := fl } obs0;
     r.result = .outOfScript ∧ r.st.qrCounter = c + 1 ∧ r.st.dcId = d ∧
     r.obs.codes = [(d, t)]) := by
  have hc : c ≤ 2 := by
    have e : MAX_QR_CODES = 3 := rfl
    omega
  interval_cases c <;> exact ⟨rfl, rfl, rfl, rfl⟩

/-- Witness for C4 at counter 0 on DC 1. -/
theorem qr_timer_expiry_issues_one_code_w :
    0 + 1 ≤ MAX_QR_CODES ∧
    (let r := create_qrcodes [.inv (.token [5] [])]
        { sessionCreated := false, dcMigrated := false, dcId := 1,
          qrCounter := 0, dcMigratedFlag := false } obs0;
     r.result = .outOfScript ∧ r.st.qrCounter = 0 + 1 ∧ r.st.dcId = 1 ∧
     r.obs.codes = [(1, [5])]) :=
  ⟨by decide, qr_timer_expiry_issues_one_code 1 0 false [5] (by decide)⟩

/-- C6 counterexample: a rate-limit response during the 2FA check is not
handled by sleeping and resuming the step - handle_2fa returns failure
without sleeping, the confirmation attempt is abandoned (SESSION_CREATED
stays clear), and the run records no sleep at all, contrary to the claim
that a rate-limit response at every step including the 2FA check leads to a
sleep and a resumption of the same step. -/
theorem qr_2fa_rate_limit_aborts :
    (handle_2fa (.flood 7)).success = false ∧ (handle_2fa (.flood 7)).sleeps = [] ∧
    (let r := create_qrcodes
        [.inv (.token [0] [.exportPwdNeeded (.flood 7) .notSuccess])]
        (initSt 1) obs0;
     r.st.sessionCreated = false ∧ r.obs.sleeps = [] ∧ r.obs.prompts = 1) := by
  decide

/-- C6 amended: in the QR-issuance loop a rate-limit response makes the
coordinator sleep for the indicated duration and resume the loop (the next
code is still issued; the response is not a terminal failure of the run),
while in the 2FA check a rate-limit response is logged and aborts the
current confirmation attempt - handle_2fa returns failure after a single
prompt without sleeping. -/
theorem qr_rate_limit_sleep_resume (d n m : Nat) (t : List Nat) :
    (let r := create_qrcodes [.inv (.floodWait n), .inv (.token t [])]
        (initSt d) obs0;
     r.obs.sleeps = [n] ∧ r.obs.codes = [(d, t)] ∧ r.result = .outOfScript) ∧
    handle_2fa (.flood m) =
      { success := false, prompts := 1, errorLogged := true, sleeps := [] } :=
  ⟨⟨rfl, rfl, rfl⟩, rfl⟩

/-- C7: in the Init step the target data center is the caller-supplied
choice when one is given (for example the prompt input "4"), otherwise the
value returned by the nearest-data-center query, and when that query fails
the coordinator falls back to DC 2 and continues with it. -/
theorem qr_init_dc_resolution (d : Nat) (q : Except Unit Nat) :
    resolveDc (some d) q = d ∧ resolveDc none (Except.ok d) = d ∧
    resolveDc none (Except.error ()) = 2 ∧ resolveDc (parseDcChoice "4") q = 4 := by
  have h4 : parseDcChoice "4" = some 4 := by decide
  exact ⟨rfl, rfl, rfl, by rw [h4]; rfl⟩

/-- C8: a failed 2FA check during confirmation (invalid secret, rate-limit,
or other error) logs the failure and aborts only that confirmation attempt:
exactly one password prompt is issued (no automatic retry), no session is
exported, the session-created event stays clear, and the coordinator keeps
running - a further code is issued afterwards and the run is still live when
the script ends. -/
theorem qr_2fa_failure_aborts_attempt_only (d : Nat) (t1 t2 : List Nat)
    (pw : PwOutcome) (h : pw.failed = true) :
    (let r := create_qrcodes
        [.inv (.token t1 [.exportPwdNeeded pw .notSuccess]), .inv (.token t2 [])]
        (initSt d) obs0;
     r.result = .outOfScript ∧ r.st.sessionCreated = false ∧ r.obs.prompts = 1 ∧
     r.obs.exportCount = 0 ∧ r.obs.codes = [(d, t1), (d, t2)]) ∧
    (handle_2fa pw).errorLogged = true := by
  cases pw with
  | ok => exact absurd h (by decide)
  | invalid => exact ⟨⟨rfl, rfl, rfl, rfl, rfl⟩, rfl⟩
  | flood n => exact ⟨⟨rfl, rfl, rfl, rfl, rfl⟩, rfl⟩
  | err => exact ⟨⟨rfl, rfl, rfl, rfl, rfl⟩, rfl⟩

/-- Witness for C8 with an invalid 2FA secret on DC 1. -/
theorem qr_2fa_failure_aborts_attempt_only_w :
    PwOutcome.failed .invalid = true ∧
    ((let r := create_qrcodes
        [.inv (.token [0] [.exportPwdNeeded .invalid .notSuccess]), .inv (.token [1] [])]
        (initSt 1) obs0;
      r.result = .outOfScript ∧ r.st.sessionCreated = false ∧ r.obs.prompts = 1 ∧
      r.obs.exportCount = 0 ∧ r.obs.codes = [(1, [0]), (1, [1])]) ∧
     (handle_2fa .invalid).errorLogged = true) :=
  ⟨by decide, qr_2fa_failure_aborts_attempt_only 1 [0] [1] .invalid (by decide)⟩

/-- C9: for every token byte string, the deep link rendered into the
scannable code by generate_qr equals "tg://login?token=" concatenated with
the RFC 4648 URL-safe base64 encoding of the token bytes. -/
theorem qr_deep_link_base64url (token : List Nat) :
    generate_qr token = "tg://login?token=" ++ String.mk (base64url token) := by
  simp only [generate_qr, login_url, urlsafe_b64encode, b64encode, base64url,
    map_translate_encode]

/-- C10: an empty session string entered at the prompt makes
session_string_auth log an error and return immediately, in every
environment: no client is constructed, no connection is attempted, and no
account information is logged. -/
theorem empty_session_string_rejected (env : StrEnv) :
    session_string_auth "" env =
      { errorLogged := true, clientConstructed := false,
        connectAttempted := false, accountLogged := false } := rfl

end PyrogramAuth
